import Mathlib

/-!
Verification of the rpi_cam_control pipeline core.

The definitions below are a shallow embedding of the C++ sources:
  * gstpicam.cpp / gstpicam.hpp : the GStreamer pull source, its hand-off
    queue, the encoder buffer callback and the buffer recycling step;
  * raspicam.cpp / raspicam.hpp : camera and encoder component construction;
  * cam_controller.cpp          : the slice-row computation of its encoder
    construction path.
External MMAL / GStreamer library calls are modelled by explicit environment
records carrying their outcomes; the control flow of the repository code
itself is translated line by line.
-/

namespace RpiCam

/-! ## Data model: frames and the hand-off queue (gstpicam.hpp) -/

/-- A host-owned frame copy (a GstBuffer allocated by the callback):
the payload bytes copied out of the hardware buffer. -/
structure GstFrame where
  data : List Nat
  deriving DecidableEq

/-- The callback inserts at the tail: `picam->queue.push(gst_buffer)`
(gstpicam.cpp:75, std::queue pushes at the back). -/
def queuePush (q : List GstFrame) (x : GstFrame) : List GstFrame := q ++ [x]

/-- The pull side takes from the head: `queue.front()` then `queue.pop()`
(gstpicam.cpp:288-289).  `none` when the queue is empty, in which case the
condition variable keeps the consumer blocked (gstpicam.cpp:287). -/
def queuePop (q : List GstFrame) : Option (GstFrame × List GstFrame) :=
  match q with
  | [] => none
  | h :: t => some (h, t)

/-- One interleaving event on the hand-off queue: a producer callback
enqueue or a consumer pull.  The mutex `queueMutex` serialises the two, so
any concurrent execution is some sequence of these events. -/
inductive QueueEvent where
  | push (x : GstFrame)
  | pop
  deriving DecidableEq

/-- Queue state together with the frames delivered to consumers so far,
in delivery order. -/
structure QueueRun where
  queue : List GstFrame
  delivered : List GstFrame
  deriving DecidableEq

/-- One serialised step on the hand-off queue.  A pop on an empty queue
cannot complete (the consumer stays blocked), modelled as `none`. -/
def stepQueue (s : QueueRun) : QueueEvent → Option QueueRun
  | .push x => some ⟨queuePush s.queue x, s.delivered⟩
  | .pop =>
    match queuePop s.queue with
    | none => none
    | some (f, rest) => some ⟨rest, s.delivered ++ [f]⟩

/-- Run a sequence of interleaved queue events. -/
def runQueue (s : QueueRun) : List QueueEvent → Option QueueRun
  | [] => some s
  | e :: es =>
    match stepQueue s e with
    | none => none
    | some s2 => runQueue s2 es

/-- The frames pushed by the callbacks of an event sequence, in production
order. -/
def pushesOf : List QueueEvent → List GstFrame
  | [] => []
  | .push x :: es => x :: pushesOf es
  | .pop :: es => pushesOf es

/-- The number of completed consumer pulls in an event sequence. -/
def popCount : List QueueEvent → Nat
  | [] => 0
  | .push _ :: es => popCount es
  | .pop :: es => popCount es + 1

/-! ## The encoder buffer callback (gstpicam.cpp:53-78) -/

/-- The fields of an MMAL buffer header the callback reads: payload
length, the MMAL_BUFFER_HEADER_FLAG_CODECSIDEINFO flag bit, and the
payload bytes. -/
structure MmalBuffer where
  length : Nat
  flagCodecSideInfo : Bool
  data : List Nat
  deriving DecidableEq

/-- The observable actions of one invocation of
`mmal_encoder_buffer_callback`, in execution order. -/
inductive CbAction where
  | memLock                 -- mmal_buffer_header_mem_lock
  | memUnlock               -- mmal_buffer_header_mem_unlock
  | allocFrame              -- gst_buffer_new_allocate
  | enqueue (f : GstFrame)  -- picam->queue.push under queueMutex
  | notify                  -- picam->queueNotEmpty.notify_one
  | releaseHeader           -- mmal_buffer_header_release
  | recycle                 -- mmal_return_buffer_to_port
  deriving DecidableEq

/-- Action trace of one callback invocation (gstpicam.cpp:53-78).  The
`gsl::finally` guards run at every scope exit in reverse declaration
order: `unlock_buffer` (declared second, line 64) fires before
`raiiBufferRelease` (declared first, lines 56-59), which releases the
header and then recycles a pool buffer to the port.  A zero-length buffer
returns before locking (line 61); a codec-side-info buffer returns after
locking (line 66); otherwise the payload is copied into a fresh GstBuffer,
which is enqueued under the mutex and the consumer is notified. -/
def mmal_encoder_buffer_callback (buf : MmalBuffer) : List CbAction :=
  if buf.length = 0 then
    [.releaseHeader, .recycle]
  else if buf.flagCodecSideInfo then
    [.memLock, .memUnlock, .releaseHeader, .recycle]
  else
    [ .memLock, .allocFrame, .enqueue ⟨buf.data.take buf.length⟩, .notify
    , .memUnlock, .releaseHeader, .recycle ]

/-- Whether an action is the header release. -/
def isRelease : CbAction → Bool
  | .releaseHeader => true
  | _ => false

/-- Whether an action is the pool recycle step. -/
def isRecycle : CbAction → Bool
  | .recycle => true
  | _ => false

/-- Whether an action allocates a Transport Frame. -/
def isAlloc : CbAction → Bool
  | .allocFrame => true
  | _ => false

/-- The frames a callback trace enqueues, in order. -/
def enqueuedFrames : List CbAction → List GstFrame
  | [] => []
  | .enqueue f :: rest => f :: enqueuedFrames rest
  | .memLock :: rest => enqueuedFrames rest
  | .memUnlock :: rest => enqueuedFrames rest
  | .allocFrame :: rest => enqueuedFrames rest
  | .notify :: rest => enqueuedFrames rest
  | .releaseHeader :: rest => enqueuedFrames rest
  | .recycle :: rest => enqueuedFrames rest

/-! ## Buffer recycling (gstpicam.cpp:35-51) -/

/-- The encoder output port as the recycle step sees it: its enabled flag
and the buffers submitted to it so far. -/
structure PortState where
  is_enabled : Bool
  submitted : List MmalBuffer
  deriving DecidableEq

/-- Outcome of the external `mmal_port_send_buffer` call. -/
structure SendEnv where
  sendOk : Bool
  deriving DecidableEq

/-- `mmal_return_buffer_to_port` (gstpicam.cpp:35-51).  Returns the
updated port and pool free list.  A disabled port returns immediately; an
empty free list (`mmal_queue_get` returning null) logs and returns; a
failing send logs and returns with the buffer already pulled. -/
def mmal_return_buffer_to_port (env : SendEnv) (port : PortState)
    (queue : List MmalBuffer) : PortState × List MmalBuffer :=
  if !port.is_enabled then
    (port, queue)
  else
    match queue with
    | [] => (port, queue)
    | new_buffer :: rest =>
      if env.sendOk then
        ({ port with submitted := port.submitted ++ [new_buffer] }, rest)
      else
        (port, rest)

/-! ## Pull source construction (gstpicam.cpp:113-158) -/

/-- Outcomes of the external construction calls performed by
`gst_pi_cam_init`. -/
structure InitEnv where
  cameraOk : Bool       -- raspicam::create_camera_component returns non-null
  encoderOk : Bool      -- create_encoder_component returns a component
  poolOk : Bool         -- ... and a non-null pool
  connectionOk : Bool   -- raspicam::connect_ports returns non-null
  poolBuffers : Nat     -- mmal_queue_length(encoder_pool->queue) at pre-load
  deriving DecidableEq

/-- The GstPiCam pointer fields that `gst_pi_cam_init` dereferences. -/
inductive PiCamField where
  | cameraComponent
  | encoderComponent
  | encoderPool
  deriving DecidableEq

/-- Result of the modelled construction: either completion, recording
whether the tunnel connection exists and how many pool buffers were
pre-loaded into the output port, or a dereference of a null pointer
field. -/
inductive InitResult where
  | ok (connected : Bool) (preloaded : Nat)
  | nullDeref (f : PiCamField)
  deriving DecidableEq

/-- `gst_pi_cam_init` (gstpicam.cpp:113-158).  Every failing sub-step only
logs a `g_warning` and execution continues; the pointer dereferences on the
following lines are modelled explicitly and yield `nullDeref` when the
pointer is null: line 132 reads `camera_component->output`, lines 133-134
read `encoder_component->input` and `->output`, and the pre-load loop of
line 147 reads `encoder_pool->queue` (the callback would too, line 58).
A failed `connect_ports` is likewise only a warning (line 141) and nothing
constructed before it is torn down. -/
def gst_pi_cam_init (env : InitEnv) : InitResult :=
  let camera_component := env.cameraOk
  let encoder_component := env.encoderOk
  let encoder_pool := env.encoderOk && env.poolOk
  if !camera_component then
    .nullDeref .cameraComponent
  else if !encoder_component then
    .nullDeref .encoderComponent
  else if !encoder_pool then
    .nullDeref .encoderPool
  else
    .ok env.connectionOk env.poolBuffers

/-! ## Stop and the blocked pull (gstpicam.cpp:224-230, 280-294) -/

/-- The synchronisation state shared between the callback thread and
consumers: the hand-off queue guarded by `queueMutex` and signalled through
`queueNotEmpty`. -/
structure PiCamSyncState where
  queue : List GstFrame
  deriving DecidableEq

/-- `gst_pi_cam_stop` (gstpicam.cpp:224-230): it logs and returns TRUE.
It neither touches the queue, nor notifies `queueNotEmpty`, nor pushes any
sentinel, nor disables any port (`gst_pi_cam_unlock`, gstpicam.cpp:243-249,
is the same kind of stub). -/
def gst_pi_cam_stop (s : PiCamSyncState) : Bool × PiCamSyncState :=
  (true, s)

/-- The wait predicate of `gst_pi_cam_create` (gstpicam.cpp:287): the
blocked call can only return once the queue is non-empty. -/
def createCanReturn (s : PiCamSyncState) : Bool :=
  !s.queue.isEmpty

/-! ## Encoder component construction (raspicam.cpp:132-319) -/

/-- VCOS_ALIGN_UP: round up to a multiple of the (power of two)
alignment. -/
def VCOS_ALIGN_UP (x align : Nat) : Nat :=
  ((x + align - 1) / align) * align

/-- The H264 levels the code selects between (gstpicam.hpp:57,
raspicam.cpp:157/247). -/
inductive H264Level where
  | level4
  | level42
  deriving DecidableEq

/-- Bitrate caps (raspicam.hpp:33-34). -/
def MAX_BITRATE_LEVEL4 : Nat := 25000000

/-- Bitrate cap for level 4.2 (raspicam.hpp:34). -/
def MAX_BITRATE_LEVEL42 : Nat := 62500000

/-- Macroblock throughput of raspicam.cpp:244-245:
aligned width / 16 times aligned height / 16 times frame rate. -/
def macroblocksPerSec (width height framerate : Nat) : Nat :=
  (VCOS_ALIGN_UP width 16 >>> 4) * (VCOS_ALIGN_UP height 16 >>> 4) * framerate

/-- The GstPiCam configuration fields read by
`raspicam::create_encoder_component` (gstpicam.hpp:44-62). -/
structure EncoderConfig where
  width : Nat
  height : Nat
  framerate : Nat
  bitrate : Nat
  intraperiod : Option Nat
  quantisationParameter : Nat
  bInlineHeaders : Bool
  addSPSTiming : Bool
  profile : Nat
  level : H264Level
  intra_refresh_type : Option Nat
  deriving DecidableEq

/-- Outcomes of the external MMAL calls made during encoder
construction, in program order. -/
structure EncoderEnv where
  componentCreateOk : Bool
  hasPorts : Bool
  formatCommitOk : Bool
  intraperiodSetOk : Bool
  qpInitialSetOk : Bool
  qpMinSetOk : Bool
  qpMaxSetOk : Bool
  profileSetOk : Bool
  inlineHeaderSetOk : Bool
  spsTimingSetOk : Bool
  intraRefreshGetOk : Bool
  intraRefreshSetOk : Bool
  componentEnableOk : Bool
  poolCreateOk : Bool
  deriving DecidableEq

/-- The environment in which every external call succeeds. -/
def allOkEnv : EncoderEnv :=
  ⟨true, true, true, true, true, true, true, true, true, true, true, true,
   true, true⟩

/-- The reasons for which `create_encoder_component` returns
`(nullptr, nullptr)`, one per `return std::make_pair(nullptr, nullptr)`
site of raspicam.cpp. -/
inductive EncoderError where
  | componentCreateFailed
  | noPorts
  | formatCommitFailed
  | intraperiodSetFailed
  | qpInitialSetFailed
  | qpMinSetFailed
  | qpMaxSetFailed
  | tooManyMacroblocks
  | profileSetFailed
  | intraRefreshSetFailed
  | componentEnableFailed
  deriving DecidableEq

/-- A successfully committed parameter-set call on the encoder output
port. -/
inductive EncoderParam where
  | intraperiod (v : Nat)
  | qpInitial (v : Nat)
  | qpMin (v : Nat)
  | qpMax (v : Nat)
  | profileLevel (profile : Nat) (level : H264Level)
  | inlineHeader (b : Bool)
  | spsTiming (b : Bool)
  | intraRefresh (mode : Nat)
  deriving DecidableEq

/-- The visible outcome of a successful encoder construction: the
successful parameter-set calls in program order, the committed level, the
effective (possibly clamped) bitrate, and whether the pool was created
(pool failure is logged but the pair is still returned,
raspicam.cpp:311-318). -/
structure EncoderOutcome where
  params : List EncoderParam
  level : H264Level
  bitrate : Nat
  poolCreated : Bool
  deriving DecidableEq

/-- Intra-period handling (raspicam.cpp:196-204): applied only when the
optional is set; a failing set call aborts construction. -/
def applyIntraperiod (env : EncoderEnv) (picam : EncoderConfig) :
    Except EncoderError (List EncoderParam) :=
  match picam.intraperiod with
  | none => .ok []
  | some v =>
    if env.intraperiodSetOk then .ok [.intraperiod v]
    else .error .intraperiodSetFailed

/-- Quantisation handling (raspicam.cpp:206-236): when the parameter is
non-zero the initial, minimum and maximum QP are all set to it, each set
call fatal on failure; when zero none of the three is touched. -/
def applyQuantisation (env : EncoderEnv) (picam : EncoderConfig) :
    Except EncoderError (List EncoderParam) :=
  if picam.quantisationParameter = 0 then .ok []
  else if !env.qpInitialSetOk then .error .qpInitialSetFailed
  else if !env.qpMinSetOk then .error .qpMinSetFailed
  else if !env.qpMaxSetOk then .error .qpMaxSetFailed
  else
    .ok [ .qpInitial picam.quantisationParameter
        , .qpMin picam.quantisationParameter
        , .qpMax picam.quantisationParameter ]

/-- Level selection (raspicam.cpp:244-252): above the lower macroblock
throughput threshold the level is raised to 4.2 when still within the
higher threshold, otherwise construction fails. -/
def chooseLevel (picam : EncoderConfig) : Except EncoderError H264Level :=
  if macroblocksPerSec picam.width picam.height picam.framerate > 245760 then
    if macroblocksPerSec picam.width picam.height picam.framerate ≤ 522240 then
      .ok H264Level.level42
    else
      .error .tooManyMacroblocks
  else
    .ok picam.level

/-- Profile/level commit (raspicam.cpp:238-261). -/
def applyProfile (env : EncoderEnv) (picam : EncoderConfig) :
    Except EncoderError (List EncoderParam × H264Level) :=
  match chooseLevel picam with
  | .error e => .error e
  | .ok lvl =>
    if env.profileSetOk then .ok ([.profileLevel picam.profile lvl], lvl)
    else .error .profileSetFailed

/-- Inline-header flag (raspicam.cpp:263-269): the set call is always
attempted; on failure the code logs and continues rather than aborts. -/
def applyInlineHeader (env : EncoderEnv) (picam : EncoderConfig) :
    List EncoderParam :=
  if env.inlineHeaderSetOk then [.inlineHeader picam.bInlineHeaders] else []

/-- SPS-timing flag (raspicam.cpp:271-277): the set call is always
attempted; on failure the code logs and continues rather than aborts. -/
def applySpsTiming (env : EncoderEnv) (picam : EncoderConfig) :
    List EncoderParam :=
  if env.spsTimingSetOk then [.spsTiming picam.addSPSTiming] else []

/-- Intra-refresh handling (raspicam.cpp:279-302): applied only when the
optional is set; a failing parameter-get only logs and zeroes the
defaults, but a failing set call aborts construction. -/
def applyIntraRefresh (env : EncoderEnv) (picam : EncoderConfig) :
    Except EncoderError (List EncoderParam) :=
  match picam.intra_refresh_type with
  | none => .ok []
  | some mode =>
    if env.intraRefreshSetOk then .ok [.intraRefresh mode]
    else .error .intraRefreshSetFailed

/-- `raspicam::create_encoder_component` (raspicam.cpp:132-319),
translated step by step: component creation, port presence check, bitrate
clamp per level (lines 157-169), output format commit, intra period, QP
triple, profile with level escalation, inline header and SPS timing
(non-fatal), intra refresh, component enable, and pool creation
(non-fatal: the pair is returned with a null pool when it fails). -/
def create_encoder_component (env : EncoderEnv) (picam : EncoderConfig) :
    Except EncoderError EncoderOutcome :=
  if !env.componentCreateOk then .error .componentCreateFailed
  else if !env.hasPorts then .error .noPorts
  else
    let bitrate :=
      if picam.level = H264Level.level4 then
        if picam.bitrate > MAX_BITRATE_LEVEL4 then MAX_BITRATE_LEVEL4
        else picam.bitrate
      else
        if picam.bitrate > MAX_BITRATE_LEVEL42 then MAX_BITRATE_LEVEL42
        else picam.bitrate
    if !env.formatCommitOk then .error .formatCommitFailed
    else
      match applyIntraperiod env picam with
      | .error e => .error e
      | .ok p1 =>
        match applyQuantisation env picam with
        | .error e => .error e
        | .ok p2 =>
          match applyProfile env picam with
          | .error e => .error e
          | .ok (p3, lvl) =>
            let p4 := applyInlineHeader env picam
            let p5 := applySpsTiming env picam
            match applyIntraRefresh env picam with
            | .error e => .error e
            | .ok p6 =>
              if !env.componentEnableOk then .error .componentEnableFailed
              else
                .ok { params := p1 ++ p2 ++ p3 ++ p4 ++ p5 ++ p6
                    , level := lvl
                    , bitrate := bitrate
                    , poolCreated := env.poolCreateOk }

/-- The committed level of a construction result, `none` on failure. -/
def effectiveLevel : Except EncoderError EncoderOutcome → Option H264Level
  | .ok out => some out.level
  | .error _ => none

/-- Whether a construction result is a success. -/
def constructionOk : Except EncoderError EncoderOutcome → Bool
  | .ok _ => true
  | .error _ => false

/-- Whether a parameter-set entry is one of the three quantisation
parameters. -/
def isQpParam : EncoderParam → Bool
  | .qpInitial _ => true
  | .qpMin _ => true
  | .qpMax _ => true
  | _ => false

/-! ## Slice configuration (cam_controller.cpp:931-948) -/

/-- Number of macroblock rows: `VCOS_ALIGN_UP(height, 16) >> 4`
(cam_controller.cpp:932). -/
def frame_mb_rows (height : Nat) : Nat :=
  VCOS_ALIGN_UP height 16 >>> 4

/-- Per-slice macroblock-row computation (cam_controller.cpp:939-941):
integer division, incremented when a remainder is left. -/
def slice_row_mb (rows slices : Nat) : Nat :=
  let q := rows / slices
  if rows - slices * q ≠ 0 then q + 1 else q

/-- What the slice block commits: the MB_ROWS_PER_SLICE value passed to
the port, if any, and whether the too-many-slices warning was printed. -/
structure SliceCommit where
  committed : Option Nat
  warned : Bool
  deriving DecidableEq

/-- The slice configuration block (cam_controller.cpp:931-948).  It runs
only for H264 encodings with more than one slice and width at most 1280;
the warning (line 936) only prints, the slice count is not actually
reduced. -/
def slice_block (h264 : Bool) (width height slices : Nat) : SliceCommit :=
  if h264 = true ∧ slices > 1 ∧ width ≤ 1280 then
    { committed := some (slice_row_mb (frame_mb_rows height) slices)
    , warned := decide (slices > frame_mb_rows height) }
  else
    { committed := none, warned := false }

/-! ## Derived definitions and concrete instances used by the theorems -/

/-- The all-ok environment with the outcomes of the inline-header and
SPS-timing set calls left as parameters. -/
def envIS (b1 b2 : Bool) : EncoderEnv :=
  { allOkEnv with inlineHeaderSetOk := b1, spsTimingSetOk := b2 }

/-- All calls succeed except the intra-period set. -/
def envIpFail : EncoderEnv := { allOkEnv with intraperiodSetOk := false }

/-- All calls succeed except the initial-QP set. -/
def envQpFail : EncoderEnv := { allOkEnv with qpInitialSetOk := false }

/-- All calls succeed except the intra-refresh set. -/
def envIrFail : EncoderEnv := { allOkEnv with intraRefreshSetOk := false }

/-- All calls succeed except the inline-header flag set. -/
def envInlineFail : EncoderEnv := { allOkEnv with inlineHeaderSetOk := false }

/-- All calls succeed except the SPS-timing flag set. -/
def envSpsFail : EncoderEnv := { allOkEnv with spsTimingSetOk := false }

/-- The intra-period entries of a successful construction. -/
def ipParamsOf (picam : EncoderConfig) : List EncoderParam :=
  match picam.intraperiod with
  | none => []
  | some v => [.intraperiod v]

/-- The quantisation entries of a successful construction. -/
def qpParamsOf (picam : EncoderConfig) : List EncoderParam :=
  if picam.quantisationParameter = 0 then []
  else
    [ .qpInitial picam.quantisationParameter
    , .qpMin picam.quantisationParameter
    , .qpMax picam.quantisationParameter ]

/-- The intra-refresh entries of a successful construction. -/
def irParamsOf (picam : EncoderConfig) : List EncoderParam :=
  match picam.intra_refresh_type with
  | none => []
  | some mode => [.intraRefresh mode]

/-- The bitrate clamp of raspicam.cpp:157-169, as a standalone
function. -/
def clampedBitrate (picam : EncoderConfig) : Nat :=
  if picam.level = H264Level.level4 then
    if picam.bitrate > MAX_BITRATE_LEVEL4 then MAX_BITRATE_LEVEL4
    else picam.bitrate
  else
    if picam.bitrate > MAX_BITRATE_LEVEL42 then MAX_BITRATE_LEVEL42
    else picam.bitrate

/-- The GstPiCam default configuration (gstpicam.hpp:44-62). -/
def defaultConfig : EncoderConfig :=
  ⟨1920, 1080, 30, 17000000, none, 0, false, false, 0, .level4, none⟩

/-- 1920x1080 at 60 fps: macroblock throughput 489600, above the lower
threshold and within the higher one. -/
def cfg1080p60 : EncoderConfig := { defaultConfig with framerate := 60 }

/-- 3840x2160 at 60 fps: macroblock throughput 2073600, above the higher
threshold. -/
def cfg4k60 : EncoderConfig :=
  { defaultConfig with width := 3840, height := 2160, framerate := 60 }

/-- Default configuration with quantisation parameter 10. -/
def cfgQp10 : EncoderConfig :=
  { defaultConfig with quantisationParameter := 10 }

/-- Default configuration with every optional parameter set. -/
def cfgOpt : EncoderConfig :=
  { defaultConfig with
      intraperiod := some 60
    , quantisationParameter := 10
    , intra_refresh_type := some 1 }

/-- The outcome of constructing the encoder for `cfgQp10` in the all-ok
environment. -/
def outQp10 : EncoderOutcome :=
  ⟨[ .qpInitial 10, .qpMin 10, .qpMax 10, .profileLevel 0 .level4
   , .inlineHeader false, .spsTiming false ], .level4, 17000000, true⟩

/-- Witness event sequence for the FIFO claim: three pushes interleaved
with three pops. -/
def fifoWitnessEvents : List QueueEvent :=
  [ .push ⟨[10]⟩, .push ⟨[20]⟩, .pop, .push ⟨[30]⟩, .pop, .pop ]

/-! ## Theorems -/

/-- Helper invariant for the hand-off queue: over any run, the delivered
frames followed by the frames still queued are exactly the frames present
initially followed by the frames pushed, and the number of deliveries
grows by the number of completed pops. -/
theorem runQueue_invariant (es : List QueueEvent) (s s2 : QueueRun)
    (h : runQueue s es = some s2) :
    s2.delivered ++ s2.queue = s.delivered ++ s.queue ++ pushesOf es ∧
    s2.delivered.length = s.delivered.length + popCount es := by
  induction es generalizing s with
  | nil =>
    simp only [runQueue] at h
    cases h
    simp [pushesOf, popCount]
  | cons e es ih =>
    cases e with
    | push x =>
      simp only [runQueue, stepQueue] at h
      obtain ⟨h1, h2⟩ := ih _ h
      constructor
      · rw [h1]; simp [queuePush, pushesOf]
      · simpa [popCount, queuePush] using h2
    | pop =>
      cases hq : s.queue with
      | nil =>
        simp [runQueue, stepQueue, queuePop, hq] at h
      | cons f rest =>
        simp only [runQueue, stepQueue, queuePop, hq] at h
        obtain ⟨h1, h2⟩ := ih _ h
        constructor
        · rw [h1]
          simp [pushesOf]
        · simp only [h2, List.length_append, List.length_cons,
            List.length_nil, popCount]
          omega

/-- Claim C1: for every interleaved sequence of callback enqueues and
completed consumer pulls on the hand-off queue — the callback pushes at
the tail (gstpicam.cpp:75) and `gst_pi_cam_create` pops from the head
(gstpicam.cpp:288-289), serialised by `queueMutex` — in which the number
of pulls equals the number N of enqueues, the pulls deliver exactly the
pushed frames in production order: strict FIFO, no reordering, coalescing
or dropping. -/
theorem handoff_queue_fifo (es : List QueueEvent) (s2 : QueueRun)
    (h : runQueue ⟨[], []⟩ es = some s2)
    (hN : popCount es = (pushesOf es).length) :
    s2.delivered = pushesOf es ∧ s2.queue = [] := by
  obtain ⟨h1, h2⟩ := runQueue_invariant es ⟨[], []⟩ s2 h
  simp only [List.nil_append, List.length_nil, Nat.zero_add] at h1 h2
  have hlen := congrArg List.length h1
  simp only [List.length_append] at hlen
  have hqnil : s2.queue = [] := by
    have : s2.queue.length = 0 := by omega
    exact List.length_eq_zero.mp this
  refine ⟨?_, hqnil⟩
  simpa [hqnil] using h1

/-- Witness for C1 at a concrete interleaving: the three frames come out
in production order and the queue ends empty. -/
theorem handoff_queue_fifo_witness :
    (⟨[], [⟨[10]⟩, ⟨[20]⟩, ⟨[30]⟩]⟩ : QueueRun).delivered
      = pushesOf fifoWitnessEvents ∧
    (⟨[], [⟨[10]⟩, ⟨[20]⟩, ⟨[30]⟩]⟩ : QueueRun).queue = [] :=
  handoff_queue_fifo fifoWitnessEvents ⟨[], [⟨[10]⟩, ⟨[20]⟩, ⟨[30]⟩]⟩
    (by decide) (by decide)

/-- Claim C2: a callback invocation on a zero-length buffer or on a
codec-side-info buffer allocates no Transport Frame and enqueues nothing,
yet releases the hardware buffer header exactly once and invokes the
pool recycle step exactly once (the `gsl::finally` guard of
gstpicam.cpp:56-59 runs on every exit path). -/
theorem callback_skip_paths_recycle_once (buf : MmalBuffer)
    (h : buf.length = 0 ∨ buf.flagCodecSideInfo = true) :
    ((mmal_encoder_buffer_callback buf).filter isAlloc).length = 0 ∧
    enqueuedFrames (mmal_encoder_buffer_callback buf) = [] ∧
    ((mmal_encoder_buffer_callback buf).filter isRelease).length = 1 ∧
    ((mmal_encoder_buffer_callback buf).filter isRecycle).length = 1 := by
  rcases h with h | h
  · simp [mmal_encoder_buffer_callback, h, enqueuedFrames, isAlloc,
      isRelease, isRecycle]
  · by_cases hz : buf.length = 0
    · simp [mmal_encoder_buffer_callback, hz, enqueuedFrames, isAlloc,
        isRelease, isRecycle]
    · simp [mmal_encoder_buffer_callback, hz, h, enqueuedFrames, isAlloc,
        isRelease, isRecycle]

/-- Witness for C2 on a concrete zero-length buffer. -/
theorem callback_skip_paths_recycle_once_witness :
    ((mmal_encoder_buffer_callback ⟨0, false, []⟩).filter isAlloc).length = 0 ∧
    enqueuedFrames (mmal_encoder_buffer_callback ⟨0, false, []⟩) = [] ∧
    ((mmal_encoder_buffer_callback ⟨0, false, []⟩).filter isRelease).length = 1 ∧
    ((mmal_encoder_buffer_callback ⟨0, false, []⟩).filter isRecycle).length = 1 :=
  callback_skip_paths_recycle_once ⟨0, false, []⟩ (Or.inl rfl)

/-- Claim C6: the recycle step `mmal_return_buffer_to_port`
(gstpicam.cpp:35-51): on a disabled port nothing is pulled and nothing is
resubmitted; on an enabled port with an empty free list resubmission is
skipped for the cycle (the function simply returns, it does not block);
on an enabled port with a non-empty free list and a successful send,
exactly the head buffer is pulled from the free list and resubmitted to
the port. -/
theorem recycle_step_cases (env : SendEnv) (port : PortState)
    (queue : List MmalBuffer) :
    (port.is_enabled = false →
      mmal_return_buffer_to_port env port queue = (port, queue)) ∧
    (port.is_enabled = true → queue = [] →
      mmal_return_buffer_to_port env port queue = (port, queue)) ∧
    (∀ b rest, port.is_enabled = true → env.sendOk = true →
      queue = b :: rest →
      mmal_return_buffer_to_port env port queue =
        ({ port with submitted := port.submitted ++ [b] }, rest)) := by
  refine ⟨?_, ?_, ?_⟩
  · intro h
    simp [mmal_return_buffer_to_port, h]
  · intro h hq
    simp [mmal_return_buffer_to_port, h, hq]
  · intro b rest h hs hq
    simp [mmal_return_buffer_to_port, h, hs, hq]

/-- Witness for C6 on a concrete enabled port with one free buffer. -/
theorem recycle_step_cases_witness :
    mmal_return_buffer_to_port ⟨true⟩ ⟨true, []⟩ [⟨5, false, [1]⟩]
      = (⟨true, [⟨5, false, [1]⟩]⟩, []) :=
  (recycle_step_cases ⟨true⟩ ⟨true, []⟩ [⟨5, false, [1]⟩]).2.2
    ⟨5, false, [1]⟩ [] rfl rfl rfl

/-- Claim C3, evaluated at the failing input: when camera component
creation fails (and every later step would succeed), `gst_pi_cam_init`
only logs a warning (gstpicam.cpp:121) and continues, dereferencing the
null `camera_component` pointer at gstpicam.cpp:132 — instead of tearing
down in reverse order and reporting the error as the claim states. -/
theorem init_camera_failure_null_deref :
    gst_pi_cam_init ⟨false, true, true, true, 3⟩
      = .nullDeref .cameraComponent := by
  decide

/-- Claim C4, counterexample: with the hand-off queue empty a consumer
inside `gst_pi_cam_create` is blocked (its wait predicate is false), and
`gst_pi_cam_stop` returns TRUE while changing nothing — no frame, no
sentinel, no notification — so the wait predicate is still false after
stop and the blocked call cannot return, contradicting the claim that it
returns with an end-of-stream indication. -/
theorem stop_leaves_blocked_consumer_cx :
    createCanReturn ⟨[]⟩ = false ∧
    gst_pi_cam_stop ⟨[]⟩ = (true, ⟨[]⟩) ∧
    createCanReturn (gst_pi_cam_stop ⟨[]⟩).2 = false := by
  decide

/-- Claim C4 as amended: `gst_pi_cam_stop` is a pure no-op returning
TRUE; a `gst_pi_cam_create` call blocked at the time of stop (empty
queue) finds the synchronisation state unchanged and remains blocked
until some later frame is enqueued; no end-of-stream indication exists. -/
theorem stop_is_noop_blocked_stays_blocked (s : PiCamSyncState)
    (h : createCanReturn s = false) :
    gst_pi_cam_stop s = (true, s) ∧
    createCanReturn (gst_pi_cam_stop s).2 = false := by
  exact ⟨rfl, h⟩

/-- Witness for the amended C4 at the empty-queue state. -/
theorem stop_is_noop_blocked_stays_blocked_witness :
    gst_pi_cam_stop ⟨[]⟩ = (true, ⟨[]⟩) ∧
    createCanReturn (gst_pi_cam_stop ⟨[]⟩).2 = false :=
  stop_is_noop_blocked_stays_blocked ⟨[]⟩ rfl

/-- Claim C5, evaluated at the failing input: when
`mmal_port_pool_create` returns null (all other construction steps
succeeding), `gst_pi_cam_init` logs a warning (gstpicam.cpp:129) and
continues, and the pre-load loop dereferences `encoder_pool->queue` at
gstpicam.cpp:147 — the null pool is dereferenced, contradicting the
claim. -/
theorem init_null_pool_deref :
    gst_pi_cam_init ⟨true, true, false, true, 3⟩
      = .nullDeref .encoderPool := by
  decide

/-- Helper: the all-ok environment is the parameterised one at
`true, true`. -/
theorem allOkEnv_envIS : allOkEnv = envIS true true := rfl

/-- Helper: the shape of encoder construction when every external call
succeeds except possibly the (non-fatal) inline-header and SPS-timing
sets: the result is determined by the level choice, and on success the
committed parameters are the intra period (when set), the QP triple (when
non-zero), the profile/level, the two flags (when their sets succeed) and
the intra refresh (when set), with the clamped bitrate and a created
pool. -/
theorem create_encoder_envIS (b1 b2 : Bool) (picam : EncoderConfig) :
    create_encoder_component (envIS b1 b2) picam =
      match chooseLevel picam with
      | .error e => .error e
      | .ok lvl =>
        .ok { params := ipParamsOf picam ++ qpParamsOf picam
                ++ [.profileLevel picam.profile lvl]
                ++ (if b1 then [.inlineHeader picam.bInlineHeaders] else [])
                ++ (if b2 then [.spsTiming picam.addSPSTiming] else [])
                ++ irParamsOf picam
            , level := lvl
            , bitrate := clampedBitrate picam
            , poolCreated := true } := by
  cases hip : picam.intraperiod <;>
  cases hir : picam.intra_refresh_type <;>
  by_cases hq : picam.quantisationParameter = 0 <;>
  cases hcl : chooseLevel picam <;>
  simp [create_encoder_component, applyIntraperiod, applyQuantisation,
    applyProfile, applyInlineHeader, applySpsTiming, applyIntraRefresh,
    envIS, allOkEnv, ipParamsOf, qpParamsOf, irParamsOf, clampedBitrate,
    hip, hir, hq, hcl]

/-- Claim C7: when every external call succeeds, a configuration whose
macroblock throughput exceeds 245760 but is at most 522240 yields a
successful construction with the level silently raised to 4.2, while a
throughput above 522240 makes construction fail
(raspicam.cpp:244-252). -/
theorem level_escalation (picam : EncoderConfig)
    (hLow : 245760 <
      macroblocksPerSec picam.width picam.height picam.framerate) :
    (macroblocksPerSec picam.width picam.height picam.framerate ≤ 522240 →
      effectiveLevel (create_encoder_component allOkEnv picam)
        = some H264Level.level42) ∧
    (522240 <
        macroblocksPerSec picam.width picam.height picam.framerate →
      create_encoder_component allOkEnv picam
        = .error .tooManyMacroblocks) := by
  constructor
  · intro hHigh
    have hcl : chooseLevel picam = .ok H264Level.level42 := by
      unfold chooseLevel
      rw [if_pos hLow, if_pos hHigh]
    rw [allOkEnv_envIS, create_encoder_envIS true true picam, hcl]
    simp [effectiveLevel]
  · intro hHigh
    have hcl : chooseLevel picam = .error .tooManyMacroblocks := by
      unfold chooseLevel
      rw [if_pos hLow, if_neg (by omega)]
    rw [allOkEnv_envIS, create_encoder_envIS true true picam, hcl]

/-- Witness for C7: 1920x1080 at 60 fps (throughput 489600) succeeds with
level 4.2; 3840x2160 at 60 fps (throughput 2073600) is rejected. -/
theorem level_escalation_witness :
    effectiveLevel (create_encoder_component allOkEnv cfg1080p60)
      = some H264Level.level42 ∧
    create_encoder_component allOkEnv cfg4k60
      = .error .tooManyMacroblocks :=
  ⟨(level_escalation cfg1080p60 (by decide)).1 (by decide),
   (level_escalation cfg4k60 (by decide)).2 (by decide)⟩

/-- Claim C9, counterexample: with every other external call succeeding,
a failing set call for the inline-headers flag, or for the timing-metadata
flag, does not cause encoder construction to fail: raspicam.cpp:263-277
logs the error and continues, and construction succeeds — contradicting
the claim that such a failure is fatal. -/
theorem inline_header_failure_not_fatal_cx :
    constructionOk (create_encoder_component envInlineFail defaultConfig)
      = true ∧
    constructionOk (create_encoder_component envSpsFail defaultConfig)
      = true := by
  constructor <;> rfl

/-- Claim C9 as amended: the intra period, quantisation and intra-refresh
parameters are applied only when set and a failing set call for any of
them aborts construction; the inline-headers and timing-metadata flags
are always applied but a failing set call for them is only logged and
never changes whether construction succeeds. -/
theorem optional_params_independent (picam : EncoderConfig) :
    (∀ b1 b2,
      constructionOk (create_encoder_component (envIS b1 b2) picam)
        = constructionOk (create_encoder_component allOkEnv picam)) ∧
    (∀ v, picam.intraperiod = some v →
      create_encoder_component envIpFail picam
        = .error .intraperiodSetFailed) ∧
    (picam.intraperiod = none →
      create_encoder_component envIpFail picam
        = create_encoder_component allOkEnv picam) ∧
    (picam.quantisationParameter ≠ 0 →
      create_encoder_component envQpFail picam
        = .error .qpInitialSetFailed) ∧
    (picam.quantisationParameter = 0 →
      create_encoder_component envQpFail picam
        = create_encoder_component allOkEnv picam) ∧
    (∀ m, picam.intra_refresh_type = some m →
      macroblocksPerSec picam.width picam.height picam.framerate ≤ 522240 →
      create_encoder_component envIrFail picam
        = .error .intraRefreshSetFailed) ∧
    (picam.intra_refresh_type = none →
      create_encoder_component envIrFail picam
        = create_encoder_component allOkEnv picam) := by
  refine ⟨?_, ?_, ?_, ?_, ?_, ?_, ?_⟩
  · intro b1 b2
    rw [allOkEnv_envIS, create_encoder_envIS b1 b2 picam,
      create_encoder_envIS true true picam]
    cases chooseLevel picam <;> simp [constructionOk]
  · intro v hv
    simp [create_encoder_component, applyIntraperiod, envIpFail, allOkEnv,
      hv]
  · intro hip
    simp [create_encoder_component, applyIntraperiod, applyQuantisation,
      applyProfile, applyInlineHeader, applySpsTiming, applyIntraRefresh,
      envIpFail, allOkEnv, hip]
  · intro hq
    cases hip : picam.intraperiod <;>
    simp [create_encoder_component, applyIntraperiod, applyQuantisation,
      envQpFail, allOkEnv, hip, hq]
  · intro hq
    simp [create_encoder_component, applyIntraperiod, applyQuantisation,
      applyProfile, applyInlineHeader, applySpsTiming, applyIntraRefresh,
      envQpFail, allOkEnv, hq]
  · intro m hm hHigh
    obtain ⟨lvl, hcl⟩ :
        ∃ l, chooseLevel picam = .ok l := by
      unfold chooseLevel
      by_cases h1 : macroblocksPerSec picam.width picam.height
          picam.framerate > 245760
      · rw [if_pos h1, if_pos hHigh]
        exact ⟨_, rfl⟩
      · rw [if_neg h1]
        exact ⟨_, rfl⟩
    cases hip : picam.intraperiod <;>
    by_cases hq : picam.quantisationParameter = 0 <;>
    simp [create_encoder_component, applyIntraperiod, applyQuantisation,
      applyProfile, applyInlineHeader, applySpsTiming, applyIntraRefresh,
      envIrFail, allOkEnv, hip, hq, hcl, hm]
  · intro hir
    simp [create_encoder_component, applyIntraperiod, applyQuantisation,
      applyProfile, applyInlineHeader, applySpsTiming, applyIntraRefresh,
      envIrFail, allOkEnv, hir]

/-- Witness for the amended C9 at a configuration with every optional
parameter set: each fatal failure mode produces its error, and flipping
both non-fatal flags leaves success unchanged. -/
theorem optional_params_independent_witness :
    create_encoder_component envIpFail cfgOpt
      = .error .intraperiodSetFailed ∧
    create_encoder_component envQpFail cfgOpt
      = .error .qpInitialSetFailed ∧
    create_encoder_component envIrFail cfgOpt
      = .error .intraRefreshSetFailed ∧
    constructionOk (create_encoder_component (envIS false false) cfgOpt)
      = constructionOk (create_encoder_component allOkEnv cfgOpt) := by
  have h := optional_params_independent cfgOpt
  exact ⟨h.2.1 60 rfl, h.2.2.2.1 (by decide),
    h.2.2.2.2.2.1 1 rfl (by decide), h.1 false false⟩

/-- Claim C10: in the all-ok environment, a successful encoder
construction commits the initial, minimum and maximum quantisation
parameters — exactly those three, in that order — all equal to the
configured quantisation parameter when it is non-zero, and commits none
of the three when it is zero (raspicam.cpp:206-236). -/
theorem constant_qp_triple (picam : EncoderConfig) (out : EncoderOutcome)
    (h : create_encoder_component allOkEnv picam = .ok out) :
    out.params.filter isQpParam =
      (if picam.quantisationParameter = 0 then []
       else
         [ .qpInitial picam.quantisationParameter
         , .qpMin picam.quantisationParameter
         , .qpMax picam.quantisationParameter ]) := by
  rw [allOkEnv_envIS, create_encoder_envIS true true picam] at h
  cases hcl : chooseLevel picam with
  | error e =>
    rw [hcl] at h
    simp at h
  | ok lvl =>
    rw [hcl] at h
    simp only [Except.ok.injEq] at h
    subst h
    cases hip : picam.intraperiod <;>
    cases hir : picam.intra_refresh_type <;>
    by_cases hq : picam.quantisationParameter = 0 <;>
    simp [ipParamsOf, qpParamsOf, irParamsOf, hip, hir, hq, isQpParam,
      List.filter_append]

/-- Witness for C10 at quantisation parameter 10 (and, for the zero
case, at the defaults where no QP entry is committed). -/
theorem constant_qp_triple_witness :
    outQp10.params.filter isQpParam
      = (if cfgQp10.quantisationParameter = 0 then []
         else
           [ .qpInitial cfgQp10.quantisationParameter
           , .qpMin cfgQp10.quantisationParameter
           , .qpMax cfgQp10.quantisationParameter ]) :=
  constant_qp_triple cfgQp10 outQp10 rfl

/-- Helper: the slice-row computation of cam_controller.cpp:939-941 is
the ceiling of rows over slices. -/
theorem slice_row_mb_eq_ceil (rows slices : Nat) (hs : 0 < slices) :
    slice_row_mb rows slices = (rows + slices - 1) / slices := by
  have hmod := Nat.div_add_mod rows slices
  have hlt : rows % slices < slices := Nat.mod_lt _ hs
  by_cases hr : rows % slices = 0
  · have hnum : rows + slices - 1
        = slices * (rows / slices) + (slices - 1) := by omega
    have hz : (slices - 1) / slices = 0 := Nat.div_eq_of_lt (by omega)
    have hceil : (rows + slices - 1) / slices = rows / slices := by
      rw [hnum, Nat.mul_add_div hs, hz, Nat.add_zero]
    rw [hceil]
    simp only [slice_row_mb]
    rw [if_neg (by omega)]
  · have h1 : (rows % slices + slices - 1) / slices = 1 :=
      Nat.div_eq_of_lt_le (by omega) (by omega)
    have hnum : rows + slices - 1
        = slices * (rows / slices) + (rows % slices + slices - 1) := by
      omega
    have hceil : (rows + slices - 1) / slices = rows / slices + 1 := by
      rw [hnum, Nat.mul_add_div hs, h1]
    rw [hceil]
    simp only [slice_row_mb]
    rw [if_pos (by omega)]

/-- Helper: the committed per-slice row count covers all macroblock
rows. -/
theorem slice_cover (rows slices : Nat) (hs : 0 < slices) :
    rows ≤ slices * slice_row_mb rows slices := by
  simp only [slice_row_mb]
  have hmod := Nat.div_add_mod rows slices
  have hlt : rows % slices < slices := Nat.mod_lt _ hs
  by_cases hr : rows % slices = 0
  · rw [if_neg (by omega)]
    omega
  · rw [if_pos (by omega), Nat.mul_add, Nat.mul_one]
    omega

/-- Claim C8, counterexample: at width 1920 (more than 1280) with 5
slices, the slice block of cam_controller.cpp:931-948 commits nothing at
all — its guard requires width at most 1280 — even though the claimed
ceiling value for the 68 macroblock rows of height 1080 would be 14. -/
theorem slice_width_limit_cx :
    slice_block true 1920 1080 5 = ⟨none, false⟩ ∧
    slice_row_mb (frame_mb_rows 1080) 5 = 14 := by
  decide

/-- Claim C8 as amended: for H264 configurations with more than one slice
and width at most 1280, the committed per-slice macroblock-row count is
the total macroblock rows divided by the slice count rounded up, the
too-many-slices warning is printed exactly when the slice count exceeds
the row count, and the committed rows cover all rows. -/
theorem slice_rounding_amended (width height slices : Nat)
    (hs : 1 < slices) (hw : width ≤ 1280) :
    (slice_block true width height slices).committed
      = some ((frame_mb_rows height + slices - 1) / slices) ∧
    ((slice_block true width height slices).warned = true
      ↔ frame_mb_rows height < slices) ∧
    frame_mb_rows height
      ≤ slices * ((frame_mb_rows height + slices - 1) / slices) := by
  have h0 : 0 < slices := by omega
  have hceil := slice_row_mb_eq_ceil (frame_mb_rows height) slices h0
  have hcov := slice_cover (frame_mb_rows height) slices h0
  refine ⟨?_, ?_, ?_⟩
  · simp [slice_block, hs, hw, hceil]
  · simp [slice_block, hs, hw]
  · rw [← hceil]
    exact hcov

/-- Witness for the amended C8: width 1280, height 1080 (68 macroblock
rows), 5 slices — the committed count is ceil(68 / 5) = 14 and covers all
68 rows. -/
theorem slice_rounding_amended_witness :
    (slice_block true 1280 1080 5).committed = some 14 ∧
    frame_mb_rows 1080 ≤ 5 * 14 := by
  have h := slice_rounding_amended 1280 1080 5 (by decide) (by decide)
  refine ⟨h.1.trans (by decide), ?_⟩
  have h2 := h.2.2
  exact le_of_le_of_eq h2 (by decide)

end RpiCam
